import Mathlib

/-!
# Rubik's cube client: state client, view/controller and net renderer

A shallow embedding of `services/api.js`, `components/RubiksCube.jsx`,
`components/CubeNet/*.jsx` and `components/Controls/*.jsx`.

* JavaScript values that `response.json()` can produce are the type `JsValue`.
* A call of `fetch` is a function from the request to its outcome; every
  operation returns, next to its result, the list of requests it issued.
* A handler of the component is a function from the state before the call to
  the state after its last `set...` call (the settled state).
* A rendered element is a record of the attributes the source writes.
-/

namespace RubiksCube

/-! ## JavaScript values -/

/-- Values of the JavaScript runtime that the program handles. A number is
carried as the text `String(n)` prints for it: the program does no
arithmetic. An object is its list of own properties. -/
inductive JsValue where
  | undefined : JsValue
  | null : JsValue
  | bool (b : Bool) : JsValue
  | number (text : String) : JsValue
  | string (s : String) : JsValue
  | array (items : List JsValue) : JsValue
  | object (fields : List (String × JsValue)) : JsValue

/-- A thrown `Error` object, as far as the program reads it: `err.message`. -/
structure JsError where
  message : String

/-- Result of an operation that may throw. -/
abbrev Js (α : Type) := Except JsError α

/-- JavaScript truthiness (`x && ...`). -/
def JsValue.truthy : JsValue → Bool
  | .undefined => false
  | .null => false
  | .bool b => b
  | .number text => !(text == "0" || text == "NaN")
  | .string s => !(s == "")
  | .array _ => true
  | .object _ => true

mutual
/-- The conversion `String(v)` used by a template literal. -/
def JsValue.toStr : JsValue → String
  | .undefined => "undefined"
  | .null => "null"
  | .bool b => if b then "true" else "false"
  | .number text => text
  | .string s => s
  | .array items => JsValue.joinItems items
  | .object _ => "[object Object]"
/-- The text of `Array.prototype.join` with a comma: null and undefined
elements print as the empty text. -/
def JsValue.joinItems : List JsValue → String
  | [] => ""
  | [v] => JsValue.itemStr v
  | v :: w :: rest => JsValue.itemStr v ++ "," ++ JsValue.joinItems (w :: rest)
/-- One element of a joined array. -/
def JsValue.itemStr : JsValue → String
  | .undefined => ""
  | .null => ""
  | .bool b => if b then "true" else "false"
  | .number text => text
  | .string s => s
  | .array items => JsValue.joinItems items
  | .object _ => "[object Object]"
end

/-- What the program reads of a `fetch` response: `ok`, `statusText` and the
outcome of `json()` (the parsed body, or the error of a body that does not
parse). -/
structure Response where
  ok : Bool
  statusText : String
  json : Js JsValue

/-- A request handed to `fetch`. `body` is the value given to
`JSON.stringify`; `method` is absent when the call passes no options. -/
structure Request where
  url : String
  method : Option String
  headers : List (String × String)
  body : Option JsValue

/-- The runtime around one handler run: how a call of `fetch` ends (a response,
or a thrown network error), and the text of the `TypeError` raised by a
property read on `null` or `undefined` (each engine has its own wording). -/
structure Env where
  fetch : Request → Js Response
  typeErrorMessage : JsValue → String → String

/-- Property read `v.key` or `v[key]` for a key that no built-in prototype
defines (every key of this program: the six face names and `cube`). -/
def JsValue.getProp (env : Env) (v : JsValue) (key : String) : Js JsValue :=
  match v with
  | .undefined => .error ⟨env.typeErrorMessage v key⟩
  | .null => .error ⟨env.typeErrorMessage v key⟩
  | .object fields =>
    match fields.lookup key with
    | some x => .ok x
    | none => .ok .undefined
  | _ => .ok .undefined

/-- Indexed read `v[i]` for a number `i`. A text yields its `i`-th character
(counted here in code points), an object its property named by the decimal
text of `i`, an array its `i`-th item, and a missing item is `undefined`. -/
def JsValue.getIndex (env : Env) (v : JsValue) (i : Nat) : Js JsValue :=
  match v with
  | .undefined => .error ⟨env.typeErrorMessage v (toString i)⟩
  | .null => .error ⟨env.typeErrorMessage v (toString i)⟩
  | .array items =>
    match items.get? i with
    | some x => .ok x
    | none => .ok .undefined
  | .string s =>
    match s.data.get? i with
    | some c => .ok (.string (String.singleton c))
    | none => .ok .undefined
  | .object fields =>
    match fields.lookup (toString i) with
    | some x => .ok x
    | none => .ok .undefined
  | _ => .ok .undefined

/-! ## services/api.js -/

def API_URL : String := "http://localhost:8080"

/-- The arguments of the `fetch` call of `getCubeState`. -/
def getCubeState.request : Request := ⟨API_URL ++ "/api/cube", none, [], none⟩

/-- `getCubeState`: the result and the requests issued. -/
def getCubeState (env : Env) : Js JsValue × List Request :=
  (match env.fetch getCubeState.request with
    | .error err => .error err
    | .ok response =>
      if !response.ok then
        .error ⟨"Failed to fetch cube state: " ++ response.statusText⟩
      else response.json,
   [getCubeState.request])

/-- The arguments of the `fetch` call of `rotateFace(face, clockwise)`. -/
def rotateFace.request (face : String) (clockwise : Bool) : Request :=
  ⟨API_URL ++ "/api/cube/rotate", some "POST", [("Content-Type", "application/json")],
    some (.object [("face", .string face), ("clockwise", .bool clockwise)])⟩

/-- `rotateFace(face, clockwise)`. -/
def rotateFace (env : Env) (face : String) (clockwise : Bool) : Js JsValue × List Request :=
  (match env.fetch (rotateFace.request face clockwise) with
    | .error err => .error err
    | .ok response =>
      if !response.ok then
        .error ⟨"Failed to rotate face: " ++ response.statusText⟩
      else response.json,
   [rotateFace.request face clockwise])

/-- The arguments of the `fetch` call of `resetCube`. -/
def resetCube.request : Request := ⟨API_URL ++ "/api/cube/reset", some "POST", [], none⟩

/-- `resetCube`. -/
def resetCube (env : Env) : Js JsValue × List Request :=
  (match env.fetch resetCube.request with
    | .error err => .error err
    | .ok response =>
      if !response.ok then
        .error ⟨"Failed to reset cube: " ++ response.statusText⟩
      else response.json,
   [resetCube.request])

/-! ## components/RubiksCube.jsx: state and handlers -/

/-- The three `useState` cells of the component. `cubeState` holds whatever
value was stored (`null` at first); `error` is `null` (here `none`) or a text. -/
structure SessionState where
  cubeState : JsValue
  loading : Bool
  error : Option String

/-- The state on mount: `useState(null)`, `useState(true)`, `useState(null)`. -/
def SessionState.initial : SessionState := ⟨.null, true, none⟩

def setCubeState (v : JsValue) (s : SessionState) : SessionState := { s with cubeState := v }

def setLoading (b : Bool) (s : SessionState) : SessionState := { s with loading := b }

def setError (e : Option String) (s : SessionState) : SessionState := { s with error := e }

/-- `fetchCubeState`: the settled state and the requests issued. -/
def fetchCubeState (env : Env) (s : SessionState) : SessionState × List Request :=
  let s1 := setLoading true s
  let call := getCubeState env
  let s2 :=
    match call.1 with
    | .ok data => setError none (setCubeState data s1)
    | .error err => setError (some err.message) s1
  (setLoading false s2, call.2)

/-- `handleRotate(face, clockwise)`. -/
def handleRotate (env : Env) (s : SessionState) (face : String) (clockwise : Bool) :
    SessionState × List Request :=
  let s1 := setLoading true s
  let call := rotateFace env face clockwise
  let tryBlock : Js SessionState := do
    let response ← call.1
    let cube ← response.getProp env "cube"
    pure (setCubeState cube s1)
  let s2 :=
    match tryBlock with
    | .ok s => s
    | .error error => setError (some ("Failed to rotate face: " ++ error.message)) s1
  (setLoading false s2, call.2)

/-- `handleReset`. -/
def handleReset (env : Env) (s : SessionState) : SessionState × List Request :=
  let s1 := setLoading true s
  let call := resetCube env
  let tryBlock : Js SessionState := do
    let response ← call.1
    let cube ← response.getProp env "cube"
    pure (setCubeState cube s1)
  let s2 :=
    match tryBlock with
    | .ok s => s
    | .error error => setError (some ("Failed to reset cube: " ++ error.message)) s1
  (setLoading false s2, call.2)

/-! ## components/CubeNet -/

/-- One rendered sticker: `<div key=... className=... />`. -/
structure Square where
  key : String
  className : String

/-- The element `CubeFace` returns. `squares` keeps the nesting of the two
`map` calls; the renderer lays the inner lists out one after the other. -/
structure FaceElement where
  className : String
  label : String
  squares : List (List Square)

/-- `CubeFace({ faceData, label, position })`. -/
def CubeFace (env : Env) (faceData : JsValue) (label position : String) : Js FaceElement := do
  let squares ← [0, 1, 2].mapM fun row =>
    [0, 1, 2].mapM fun col => do
      let line ← faceData.getIndex env row
      let sticker ← line.getIndex env col
      pure (Square.mk (toString row ++ "-" ++ toString col) ("square " ++ sticker.toStr))
  pure ⟨"face-container " ++ position, label, squares⟩

/-- The stickers of a rendered face in document order. -/
def FaceElement.stickers (f : FaceElement) : List Square := f.squares.flatten

/-- One entry of `faceConfig`. -/
structure FaceConfig where
  face : String
  label : String
  position : String

def faceConfig : List FaceConfig :=
  [⟨"up", "U", "up"⟩, ⟨"left", "L", "left"⟩, ⟨"front", "F", "front"⟩,
   ⟨"right", "R", "right"⟩, ⟨"back", "B", "back"⟩, ⟨"down", "D", "down"⟩]

/-- `CubeNet({ cubeState })`: the rendered faces, each with its `key`. -/
def CubeNet (env : Env) (cubeState : JsValue) : Js (List (String × FaceElement)) :=
  faceConfig.mapM fun config => do
    let faceData ← cubeState.getProp env config.face
    let element ← CubeFace env faceData config.label config.position
    pure (config.face, element)

/-! ## components/Controls -/

/-- The props of a `FaceButton` element (`handleRotate` is the same handler for
every button). -/
structure FaceButtonProps where
  face : String
  label : String
  direction : String
  loading : Bool

/-- The `<button>` a `FaceButton` renders. `onClick` holds the arguments of the
one call `handleRotate(face, isClockwise)` the closure makes. -/
structure RotateButton where
  onClick : String × Bool
  disabled : Bool
  className : String
  text : String

/-- `FaceButton({ face, label, direction, handleRotate, loading })`. -/
def FaceButton (p : FaceButtonProps) : RotateButton :=
  let isClockwise := p.direction == "clockwise"
  let directionSymbol := if isClockwise then "↻" else "↺"
  ⟨(p.face, isClockwise), p.loading, "rotate-btn", p.label ++ " " ++ directionSymbol⟩

/-- One `<div className="face-controls">` of `FaceControls`. -/
structure FaceControlsGroup where
  key : String
  label : String
  buttons : List FaceButtonProps

/-- The `faces` table of `FaceControls`. -/
def FaceControls.faces : List (String × String) :=
  [("front", "F"), ("right", "R"), ("up", "U"), ("back", "B"), ("left", "L"), ("down", "D")]

/-- `FaceControls({ handleRotate, loading })`. -/
def FaceControls (loading : Bool) : List FaceControlsGroup :=
  FaceControls.faces.map fun (face, label) =>
    ⟨face, label, [⟨face, label, "clockwise", loading⟩, ⟨face, label, "counterclockwise", loading⟩]⟩

/-- The `FaceButton` elements of `FaceControls` in document order. -/
def FaceControls.elements (loading : Bool) : List FaceButtonProps :=
  (FaceControls loading).flatMap fun g => g.buttons

/-- The `<button>` of `CubeOperations`; its `onClick` is `handleReset`. -/
structure ResetButton where
  disabled : Bool
  className : String
  text : String

/-- `CubeOperations({ handleReset, loading })`. -/
def CubeOperations (loading : Bool) : ResetButton :=
  ⟨loading, "operation-btn reset-btn", "Reset Cube"⟩

/-- A click on a rotate button: a disabled button fires no handler. -/
def RotateButton.click (b : RotateButton) (env : Env) (s : SessionState) :
    SessionState × List Request :=
  if b.disabled then (s, []) else handleRotate env s b.onClick.1 b.onClick.2

/-- A click on the reset button. -/
def ResetButton.click (b : ResetButton) (env : Env) (s : SessionState) :
    SessionState × List Request :=
  if b.disabled then (s, []) else handleReset env s

/-! ## components/RubiksCube.jsx: rendering -/

/-- The `controls-container` of the component. -/
structure Controls where
  faceControls : List FaceControlsGroup
  cubeOperations : ResetButton

/-- What the component renders. -/
structure View where
  errorMessage : Option String
  loadingIndicator : Bool
  cubeNet : Option (List (String × FaceElement))
  controls : Controls

/-- The `controls-container` rendered from a state. -/
def controlsContainer (s : SessionState) : Controls :=
  ⟨FaceControls s.loading, CubeOperations s.loading⟩

/-- The text of the error banner: `error && <div ...><p>{error}</p></div>`. -/
def errorBanner (s : SessionState) : Option String :=
  match s.error with
  | none => none
  | some e => if e == "" then none else some e

/-- The render function of `RubiksCube`. The net is rendered for a truthy
`cubeState` only, and the whole render throws when `CubeNet` does. -/
def render (env : Env) (s : SessionState) : Js View := do
  let net ← if s.cubeState.truthy then (CubeNet env s.cubeState).map some else pure none
  pure ⟨errorBanner s, s.loading, net, controlsContainer s⟩

/-! ## The data model of the specification -/

/-- The six face identifiers of the data model. -/
def FaceIds : List String := ["up", "down", "front", "back", "left", "right"]

/-- A FaceGrid of the data model: three rows of three sticker tokens. -/
abbrev FaceGrid := Fin 3 → Fin 3 → String

/-- The wire form of a FaceGrid: an array of three rows, rows outer. -/
def FaceGrid.toJs (g : FaceGrid) : JsValue :=
  .array [.array [.string (g 0 0), .string (g 0 1), .string (g 0 2)],
          .array [.string (g 1 0), .string (g 1 1), .string (g 1 2)],
          .array [.string (g 2 0), .string (g 2 1), .string (g 2 2)]]

/-- The nine stickers of a FaceGrid in row-major order. -/
def FaceGrid.rowMajor (g : FaceGrid) : List String :=
  [g 0 0, g 0 1, g 0 2, g 1 0, g 1 1, g 1 2, g 2 0, g 2 1, g 2 2]

/-- Reading a value as a FaceGrid: an array of exactly three rows, each an
array of exactly three sticker tokens (texts). -/
def FaceGrid.ofJs : JsValue → Option FaceGrid
  | .array [.array [.string a, .string b, .string c],
            .array [.string d, .string e, .string f],
            .array [.string g, .string h, .string i]] =>
    some ![![a, b, c], ![d, e, f], ![g, h, i]]
  | _ => none

/-- A 3×3 grid of sticker tokens. -/
def isFaceGrid (v : JsValue) : Bool := (FaceGrid.ofJs v).isSome

/-- A well-formed CubeState: an object in which each of the six faces is
present and is a 3×3 grid. -/
def isCubeState : JsValue → Bool
  | .object fields =>
    FaceIds.all fun f =>
      match fields.lookup f with
      | some g => isFaceGrid g
      | none => false
  | _ => false

/-- The grid `c[f]` of face `f` of a cube state `c` (the empty-token grid
where `c` has no such grid). -/
def JsValue.face (c : JsValue) (f : String) : FaceGrid :=
  match c with
  | .object fields =>
    match fields.lookup f with
    | some g => (FaceGrid.ofJs g).getD (fun _ _ => "")
    | none => fun _ _ => ""
  | _ => fun _ _ => ""

/-- The twelve moves of the data model: a face and a direction. -/
def Moves : List (String × String) :=
  ["front", "back", "up", "down", "left", "right"].product ["clockwise", "counterclockwise"]

/-- The element that `CubeFace` returns for a FaceGrid, written out. -/
def FaceGrid.rendered (g : FaceGrid) (label position : String) : FaceElement :=
  ⟨"face-container " ++ position, label,
    [[⟨"0-0", "square " ++ g 0 0⟩, ⟨"0-1", "square " ++ g 0 1⟩, ⟨"0-2", "square " ++ g 0 2⟩],
     [⟨"1-0", "square " ++ g 1 0⟩, ⟨"1-1", "square " ++ g 1 1⟩, ⟨"1-2", "square " ++ g 1 2⟩],
     [⟨"2-0", "square " ++ g 2 0⟩, ⟨"2-1", "square " ++ g 2 1⟩, ⟨"2-2", "square " ++ g 2 2⟩]]⟩

/-! ## Sample runtimes and values -/

namespace Sample

/-- A face whose nine stickers are the same token. -/
def uniform (token : String) : FaceGrid := fun _ _ => token

/-- The solved cube as the service sends it. -/
def solved : JsValue :=
  .object [("up", (uniform "U").toJs), ("down", (uniform "D").toJs),
           ("front", (uniform "F").toJs), ("back", (uniform "B").toJs),
           ("left", (uniform "L").toJs), ("right", (uniform "R").toJs)]

/-- The wording of one engine for a read on `null` or `undefined`. -/
def typeErrorMessage (_ : JsValue) (key : String) : String :=
  "Cannot read properties of null (reading " ++ key ++ ")"

/-- A runtime in which every request gets the same response. -/
def respond (response : Response) : Env := ⟨fun _ => .ok response, typeErrorMessage⟩

/-- A runtime in which `fetch` throws an error with the given message. -/
def throwing (message : String) : Env := ⟨fun _ => .error ⟨message⟩, typeErrorMessage⟩

/-- A response `200 OK` with the given parsed body. -/
def okWith (body : JsValue) : Response := ⟨true, "OK", .ok body⟩

/-- A response `500 Internal Server Error`. -/
def serverError : Response := ⟨false, "Internal Server Error", .ok (.object [])⟩

/-- A response `404 Not Found`. -/
def notFound : Response := ⟨false, "Not Found", .ok .null⟩

/-- The state after a startup fetch that received the solved cube. -/
def ready : SessionState := (fetchCubeState (respond (okWith solved)) SessionState.initial).1

end Sample

/-! ## Facts about texts -/

theorem append_ne_empty (p s : String) (hp : p ≠ "") : p ++ s ≠ "" := by
  intro h
  apply hp
  have h1 := congrArg String.data h
  simp at h1
  exact String.ext h1.1

theorem append_left_inj (p a b : String) (h : p ++ a = p ++ b) : a = b := by
  have h1 := congrArg String.data h
  simp at h1
  exact String.ext h1

/-! ## Facts about the three calls -/

theorem getCubeState_throw (env : Env) (err : JsError)
    (h : env.fetch getCubeState.request = .error err) :
    (getCubeState env).1 = .error err := by
  simp [getCubeState, h]

theorem getCubeState_not_ok (env : Env) (response : Response)
    (h : env.fetch getCubeState.request = .ok response) (hok : response.ok = false) :
    (getCubeState env).1 = .error ⟨"Failed to fetch cube state: " ++ response.statusText⟩ := by
  simp [getCubeState, h, hok]

theorem getCubeState_success (env : Env) (response : Response)
    (h : env.fetch getCubeState.request = .ok response) (hok : response.ok = true) :
    (getCubeState env).1 = response.json := by
  simp [getCubeState, h, hok]

theorem rotateFace_not_ok (env : Env) (face : String) (clockwise : Bool) (response : Response)
    (h : env.fetch (rotateFace.request face clockwise) = .ok response)
    (hok : response.ok = false) :
    (rotateFace env face clockwise).1 =
      .error ⟨"Failed to rotate face: " ++ response.statusText⟩ := by
  simp [rotateFace, h, hok]

theorem rotateFace_success (env : Env) (face : String) (clockwise : Bool) (response : Response)
    (h : env.fetch (rotateFace.request face clockwise) = .ok response)
    (hok : response.ok = true) :
    (rotateFace env face clockwise).1 = response.json := by
  simp [rotateFace, h, hok]

theorem resetCube_not_ok (env : Env) (response : Response)
    (h : env.fetch resetCube.request = .ok response) (hok : response.ok = false) :
    (resetCube env).1 = .error ⟨"Failed to reset cube: " ++ response.statusText⟩ := by
  simp [resetCube, h, hok]

theorem resetCube_success (env : Env) (response : Response)
    (h : env.fetch resetCube.request = .ok response) (hok : response.ok = true) :
    (resetCube env).1 = response.json := by
  simp [resetCube, h, hok]

theorem handleRotate_error (env : Env) (s : SessionState) (face : String) (clockwise : Bool)
    (err : JsError) (h : (rotateFace env face clockwise).1 = .error err) :
    (handleRotate env s face clockwise).1 =
      ⟨s.cubeState, false, some ("Failed to rotate face: " ++ err.message)⟩ := by
  simp [handleRotate, h, bind, Except.bind, setLoading, setError]

theorem handleReset_error (env : Env) (s : SessionState)
    (err : JsError) (h : (resetCube env).1 = .error err) :
    (handleReset env s).1 =
      ⟨s.cubeState, false, some ("Failed to reset cube: " ++ err.message)⟩ := by
  simp [handleReset, h, bind, Except.bind, setLoading, setError]

theorem handleRotate_ok (env : Env) (s : SessionState) (face : String) (clockwise : Bool)
    (body c : JsValue) (h : (rotateFace env face clockwise).1 = .ok body)
    (hc : body.getProp env "cube" = .ok c) :
    (handleRotate env s face clockwise).1 = ⟨c, false, s.error⟩ := by
  simp [handleRotate, h, hc, bind, Except.bind, setLoading, setCubeState, pure, Except.pure]

theorem handleReset_ok (env : Env) (s : SessionState)
    (body c : JsValue) (h : (resetCube env).1 = .ok body)
    (hc : body.getProp env "cube" = .ok c) :
    (handleReset env s).1 = ⟨c, false, s.error⟩ := by
  simp [handleReset, h, hc, bind, Except.bind, setLoading, setCubeState, pure, Except.pure]

theorem fetchCubeState_ok (env : Env) (s : SessionState) (c : JsValue)
    (h : (getCubeState env).1 = .ok c) :
    (fetchCubeState env s).1 = ⟨c, false, none⟩ := by
  simp [fetchCubeState, h, setLoading, setCubeState, setError]

theorem fetchCubeState_error (env : Env) (s : SessionState) (err : JsError)
    (h : (getCubeState env).1 = .error err) :
    (fetchCubeState env s).1 = ⟨s.cubeState, false, some err.message⟩ := by
  simp [fetchCubeState, h, setLoading, setError]

theorem handleRotate_error_none (env : Env) (s : SessionState) (face : String)
    (clockwise : Bool) (h : (handleRotate env s face clockwise).1.error = none) :
    s.error = none := by
  cases hr : (rotateFace env face clockwise).1 with
  | error err =>
    rw [handleRotate_error env s face clockwise err hr] at h
    cases h
  | ok body =>
    cases hc : body.getProp env "cube" with
    | error err =>
      simp [handleRotate, hr, hc, bind, Except.bind, setLoading, setError] at h
    | ok c =>
      rw [handleRotate_ok env s face clockwise body c hr hc] at h
      exact h

theorem handleReset_error_none (env : Env) (s : SessionState)
    (h : (handleReset env s).1.error = none) : s.error = none := by
  cases hr : (resetCube env).1 with
  | error err =>
    rw [handleReset_error env s err hr] at h
    cases h
  | ok body =>
    cases hc : body.getProp env "cube" with
    | error err =>
      simp [handleReset, hr, hc, bind, Except.bind, setLoading, setError] at h
    | ok c =>
      rw [handleReset_ok env s body c hr hc] at h
      exact h

theorem errorBanner_of_nonempty (s : SessionState) (e : String) (h : s.error = some e)
    (hne : e ≠ "") : errorBanner s = some e := by
  simp [errorBanner, h, hne]

theorem render_ok (env : Env) (s : SessionState) (view : View) (h : render env s = .ok view) :
    view.errorMessage = errorBanner s ∧ view.loadingIndicator = s.loading ∧
    view.controls = controlsContainer s := by
  unfold render at h
  cases ht : s.cubeState.truthy with
  | false =>
    simp [ht, bind, Except.bind, pure, Except.pure] at h
    subst h
    exact ⟨rfl, rfl, rfl⟩
  | true =>
    cases hn : CubeNet env s.cubeState with
    | error err => simp [ht, hn, bind, Except.bind, Except.map] at h
    | ok net =>
      simp [ht, hn, bind, Except.bind, Except.map, pure, Except.pure] at h
      subst h
      exact ⟨rfl, rfl, rfl⟩

theorem FaceGrid.ofJs_eq_some (v : JsValue) (g : FaceGrid) (h : FaceGrid.ofJs v = some g) :
    v = g.toJs := by
  unfold FaceGrid.ofJs at h
  split at h
  · cases h
    rfl
  · cases h

theorem CubeFace_toJs (env : Env) (g : FaceGrid) (label position : String) :
    CubeFace env g.toJs label position = .ok (g.rendered label position) :=
  rfl

theorem isCubeState_lookup (fields : List (String × JsValue))
    (h : isCubeState (.object fields) = true) (f : String) (hf : f ∈ FaceIds) :
    fields.lookup f = some ((JsValue.object fields).face f).toJs := by
  simp only [isCubeState, List.all_eq_true] at h
  have h1 := h f hf
  cases hl : fields.lookup f with
  | none => simp [hl] at h1
  | some g =>
    rw [hl] at h1
    simp only [isFaceGrid, Option.isSome_iff_exists] at h1
    obtain ⟨G, hG⟩ := h1
    have hface : (JsValue.object fields).face f = G := by
      simp [JsValue.face, hl, hG]
    rw [hface, FaceGrid.ofJs_eq_some g G hG]

theorem rowMajor_classes_inj (g g2 : FaceGrid)
    (h : g.rowMajor.map (fun t => "square " ++ t) = g2.rowMajor.map (fun t => "square " ++ t)) :
    g = g2 := by
  simp only [FaceGrid.rowMajor, List.map_cons, List.map_nil, List.cons.injEq, and_true] at h
  obtain ⟨h00, h01, h02, h10, h11, h12, h20, h21, h22⟩ := h
  funext i j
  fin_cases i <;> fin_cases j
  · exact append_left_inj _ _ _ h00
  · exact append_left_inj _ _ _ h01
  · exact append_left_inj _ _ _ h02
  · exact append_left_inj _ _ _ h10
  · exact append_left_inj _ _ _ h11
  · exact append_left_inj _ _ _ h12
  · exact append_left_inj _ _ _ h20
  · exact append_left_inj _ _ _ h21
  · exact append_left_inj _ _ _ h22

theorem render_empty_object_throws (env : Env) (loading : Bool) (error : Option String) :
    render env ⟨.object [], loading, error⟩ =
      .error ⟨env.typeErrorMessage .undefined "0"⟩ :=
  rfl

/-! ## Properties of the client -/

/-- C1: from a state with cube = c and loading = false (as a successful fetch
leaves it), for every face and direction, when `rotateFace` throws, the state
settled by `handleRotate` has cube = c, a non-empty error text and
loading = false. -/
theorem failed_move_keeps_cube (env : Env) (s : SessionState) (c : JsValue)
    (face : String) (clockwise : Bool) (err : JsError)
    (hcube : s.cubeState = c) (_hloading : s.loading = false)
    (hfail : (rotateFace env face clockwise).1 = .error err) :
    (handleRotate env s face clockwise).1.cubeState = c ∧
    (∃ e, (handleRotate env s face clockwise).1.error = some e ∧ e ≠ "") ∧
    (handleRotate env s face clockwise).1.loading = false := by
  rw [handleRotate_error env s face clockwise err hfail]
  exact ⟨hcube, ⟨_, rfl, append_ne_empty _ _ (by decide)⟩, rfl⟩

/-- Witness of C1: the solved cube was fetched, then rotating the front face
clockwise is answered with status 500. -/
theorem failed_move_keeps_cube_witness :
    Sample.ready.cubeState = Sample.solved ∧ Sample.ready.loading = false ∧
    (rotateFace (Sample.respond Sample.serverError) "front" true).1 =
      .error ⟨"Failed to rotate face: Internal Server Error"⟩ ∧
    (handleRotate (Sample.respond Sample.serverError) Sample.ready "front" true).1.cubeState
      = Sample.solved ∧
    (∃ e, (handleRotate (Sample.respond Sample.serverError) Sample.ready "front" true).1.error
      = some e ∧ e ≠ "") ∧
    (handleRotate (Sample.respond Sample.serverError) Sample.ready "front" true).1.loading
      = false :=
  ⟨rfl, rfl, rfl,
    failed_move_keeps_cube (Sample.respond Sample.serverError) Sample.ready Sample.solved
      "front" true ⟨"Failed to rotate face: Internal Server Error"⟩ rfl rfl rfl⟩

/-- C2, counterexample: `fetch` throws an error whose message is empty; the
startup fetch fails and the settled error is the empty text. -/
theorem startup_fetch_empty_message :
    (getCubeState (Sample.throwing "")).1 = .error ⟨""⟩ ∧
    (fetchCubeState (Sample.throwing "") SessionState.initial).1.error = some "" ∧
    ¬ ∃ e, (fetchCubeState (Sample.throwing "") SessionState.initial).1.error = some e ∧
      e ≠ "" := by
  refine ⟨rfl, rfl, ?_⟩
  rintro ⟨e, he, hne⟩
  have h : (fetchCubeState (Sample.throwing "") SessionState.initial).1.error = some "" := rfl
  rw [h] at he
  exact hne (Option.some.inj he).symm

/-- C2 (corrected statement): from the initial state, for every way the startup
`getCubeState` call fails, the settled state has cube absent, loading = false
and error = the message of the failure. For a non-ok response that message is
`Failed to fetch cube state: ` followed by the status text, hence non-empty;
for a thrown network or parse error it is the message of that error, and the
stored error is non-empty when that message is. -/
theorem startup_fetch_failure (env : Env) (err : JsError)
    (hfail : (getCubeState env).1 = .error err) :
    (fetchCubeState env SessionState.initial).1.cubeState = .null ∧
    (fetchCubeState env SessionState.initial).1.loading = false ∧
    (fetchCubeState env SessionState.initial).1.error = some err.message ∧
    (∀ response, env.fetch getCubeState.request = .ok response → response.ok = false →
      err.message = "Failed to fetch cube state: " ++ response.statusText ∧ err.message ≠ "") ∧
    (∀ thrown, env.fetch getCubeState.request = .error thrown → err = thrown) ∧
    (∀ response, env.fetch getCubeState.request = .ok response → response.ok = true →
      response.json = .error err) := by
  rw [fetchCubeState_error env _ err hfail]
  refine ⟨rfl, rfl, rfl, ?_, ?_, ?_⟩
  · intro response h hok
    have h1 := getCubeState_not_ok env response h hok
    rw [hfail] at h1
    have h2 : err = ⟨"Failed to fetch cube state: " ++ response.statusText⟩ :=
      Except.error.inj h1
    rw [h2]
    exact ⟨rfl, append_ne_empty _ _ (by decide)⟩
  · intro thrown h
    have h1 := getCubeState_throw env thrown h
    rw [hfail] at h1
    exact Except.error.inj h1
  · intro response h hok
    have h1 := getCubeState_success env response h hok
    rw [hfail] at h1
    exact h1.symm

/-- Witness of C2 (corrected statement): the startup fetch is answered with status 404. -/
theorem startup_fetch_failure_witness :
    (fetchCubeState (Sample.respond Sample.notFound) SessionState.initial).1.cubeState = .null ∧
    (fetchCubeState (Sample.respond Sample.notFound) SessionState.initial).1.loading = false ∧
    (fetchCubeState (Sample.respond Sample.notFound) SessionState.initial).1.error =
      some "Failed to fetch cube state: Not Found" :=
  have h := startup_fetch_failure (Sample.respond Sample.notFound)
    ⟨"Failed to fetch cube state: Not Found"⟩ rfl
  ⟨h.1, h.2.1, h.2.2.1⟩

/-- C3, counterexample: a response with a success status whose body is the
empty object, which has none of the six faces; `getCubeState` returns it. -/
theorem getCubeState_returns_malformed :
    (Sample.okWith (.object [])).ok = true ∧
    isCubeState (.object []) = false ∧
    (getCubeState (Sample.respond (Sample.okWith (.object [])))).1 = .ok (.object []) :=
  ⟨rfl, rfl, rfl⟩

/-- C3 (corrected statement): `getCubeState` returns a value exactly when the response
has a success status and its body parses, and the value returned is the parsed
body unchanged, whatever its shape: no check of the six faces or of the 3×3
grids is made. In every other case (fetch throws, the status is not a success
status, the body does not parse) it fails. -/
theorem getCubeState_returns_body (env : Env) (v : JsValue) :
    (getCubeState env).1 = .ok v ↔
      ∃ response, env.fetch getCubeState.request = .ok response ∧
        response.ok = true ∧ response.json = .ok v := by
  constructor
  · intro h
    cases hf : env.fetch getCubeState.request with
    | error err =>
      rw [getCubeState_throw env err hf] at h
      cases h
    | ok response =>
      cases hok : response.ok with
      | false =>
        rw [getCubeState_not_ok env response hf hok] at h
        cases h
      | true =>
        rw [getCubeState_success env response hf hok] at h
        exact ⟨response, rfl, hok, h⟩
  · rintro ⟨response, hf, hok, hjson⟩
    rw [getCubeState_success env response hf hok, hjson]

/-- Witness of C3 (corrected statement): a body with a single face that is an empty
array is returned as it is. -/
theorem getCubeState_returns_body_witness :
    isCubeState (.object [("up", .array [])]) = false ∧
    (getCubeState (Sample.respond (Sample.okWith (.object [("up", .array [])])))).1 =
      .ok (.object [("up", .array [])]) :=
  ⟨rfl,
    (getCubeState_returns_body (Sample.respond (Sample.okWith (.object [("up", .array [])])))
      (.object [("up", .array [])])).mpr ⟨Sample.okWith (.object [("up", .array [])]), rfl, rfl, rfl⟩⟩

/-- C7, counterexample: the startup fetch is answered with status 404 and the
status text `Not Found`; the stored error is not that status text. -/
theorem stored_error_is_not_status_text :
    Sample.notFound.ok = false ∧
    (getCubeState (Sample.respond Sample.notFound)).1 =
      .error ⟨"Failed to fetch cube state: Not Found"⟩ ∧
    (fetchCubeState (Sample.respond Sample.notFound) SessionState.initial).1.error =
      some "Failed to fetch cube state: Not Found" ∧
    (fetchCubeState (Sample.respond Sample.notFound) SessionState.initial).1.error ≠
      some Sample.notFound.statusText := by
  refine ⟨rfl, rfl, rfl, ?_⟩
  have h : (fetchCubeState (Sample.respond Sample.notFound) SessionState.initial).1.error =
      some "Failed to fetch cube state: Not Found" := rfl
  rw [h]
  decide

/-- C7 (corrected statement): for each of `getCubeState`, `rotateFace` and `resetCube`,
for every response whose status is not a success status, whatever its body,
the call fails, and its message is the status text after a prefix that names
the operation. The error stored in the state is that message for
`fetchCubeState`, and that message after the same prefix once more for
`handleRotate` and `handleReset`. -/
theorem non_ok_response_fails (env : Env) (s : SessionState) (face : String)
    (clockwise : Bool) (response : Response) (hok : response.ok = false) :
    (env.fetch getCubeState.request = .ok response →
      (getCubeState env).1 =
        .error ⟨"Failed to fetch cube state: " ++ response.statusText⟩ ∧
      (fetchCubeState env s).1.error =
        some ("Failed to fetch cube state: " ++ response.statusText)) ∧
    (env.fetch (rotateFace.request face clockwise) = .ok response →
      (rotateFace env face clockwise).1 =
        .error ⟨"Failed to rotate face: " ++ response.statusText⟩ ∧
      (handleRotate env s face clockwise).1.error =
        some ("Failed to rotate face: " ++ ("Failed to rotate face: " ++ response.statusText))) ∧
    (env.fetch resetCube.request = .ok response →
      (resetCube env).1 =
        .error ⟨"Failed to reset cube: " ++ response.statusText⟩ ∧
      (handleReset env s).1.error =
        some ("Failed to reset cube: " ++ ("Failed to reset cube: " ++ response.statusText))) := by
  refine ⟨?_, ?_, ?_⟩
  · intro h
    have h1 := getCubeState_not_ok env response h hok
    exact ⟨h1, by rw [fetchCubeState_error env s _ h1]⟩
  · intro h
    have h1 := rotateFace_not_ok env face clockwise response h hok
    exact ⟨h1, by rw [handleRotate_error env s face clockwise _ h1]⟩
  · intro h
    have h1 := resetCube_not_ok env response h hok
    exact ⟨h1, by rw [handleReset_error env s _ h1]⟩

/-- Witness of C7 (corrected statement): every request is answered with status 500. -/
theorem non_ok_response_fails_witness :
    (fetchCubeState (Sample.respond Sample.serverError) Sample.ready).1.error =
      some "Failed to fetch cube state: Internal Server Error" ∧
    (handleRotate (Sample.respond Sample.serverError) Sample.ready "front" true).1.error =
      some "Failed to rotate face: Failed to rotate face: Internal Server Error" ∧
    (handleReset (Sample.respond Sample.serverError) Sample.ready).1.error =
      some "Failed to reset cube: Failed to reset cube: Internal Server Error" :=
  have h := non_ok_response_fails (Sample.respond Sample.serverError) Sample.ready "front" true
    Sample.serverError rfl
  ⟨(h.1 rfl).2, (h.2.1 rfl).2, (h.2.2 rfl).2⟩

/-- C8: from every prior state, a startup fetch that succeeds with c settles
in cube = c, error absent, loading = false; a rotate or a reset that succeeds
with a body whose `cube` is c settles in cube = c and loading = false; and two
successive resets that both succeed with the same body leave the same cube
both times. -/
theorem success_stores_cube (env env2 : Env) (s : SessionState) (face : String)
    (clockwise : Bool) (fields : List (String × JsValue)) (c : JsValue)
    (hcube : fields.lookup "cube" = some c) :
    ((getCubeState env).1 = .ok c → (fetchCubeState env s).1 = ⟨c, false, none⟩) ∧
    ((rotateFace env face clockwise).1 = .ok (.object fields) →
      (handleRotate env s face clockwise).1.cubeState = c ∧
      (handleRotate env s face clockwise).1.loading = false) ∧
    ((resetCube env).1 = .ok (.object fields) →
      (handleReset env s).1.cubeState = c ∧ (handleReset env s).1.loading = false) ∧
    ((resetCube env).1 = .ok (.object fields) → (resetCube env2).1 = .ok (.object fields) →
      (handleReset env s).1.cubeState = c ∧
      (handleReset env2 (handleReset env s).1).1.cubeState = c) := by
  have hget : ∀ e : Env, (JsValue.object fields).getProp e "cube" = .ok c := by
    intro e
    simp [JsValue.getProp, hcube]
  refine ⟨fetchCubeState_ok env s c, ?_, ?_, ?_⟩
  · intro h
    rw [handleRotate_ok env s face clockwise _ c h (hget env)]
    exact ⟨rfl, rfl⟩
  · intro h
    rw [handleReset_ok env s _ c h (hget env)]
    exact ⟨rfl, rfl⟩
  · intro h h2
    rw [handleReset_ok env2 _ _ c h2 (hget env2), handleReset_ok env s _ c h (hget env)]
    exact ⟨rfl, rfl⟩

/-- Witness of C8: the service answers every request with the solved cube
under `cube`. -/
theorem success_stores_cube_witness :
    (handleRotate (Sample.respond (Sample.okWith (.object [("cube", Sample.solved)])))
      SessionState.initial "up" false).1.cubeState = Sample.solved ∧
    (handleReset (Sample.respond (Sample.okWith (.object [("cube", Sample.solved)])))
      SessionState.initial).1.cubeState = Sample.solved ∧
    (handleReset (Sample.respond (Sample.okWith (.object [("cube", Sample.solved)])))
      (handleReset (Sample.respond (Sample.okWith (.object [("cube", Sample.solved)])))
        SessionState.initial).1).1.cubeState = Sample.solved :=
  have h := success_stores_cube
    (Sample.respond (Sample.okWith (.object [("cube", Sample.solved)])))
    (Sample.respond (Sample.okWith (.object [("cube", Sample.solved)])))
    SessionState.initial "up" false [("cube", Sample.solved)] Sample.solved rfl
  ⟨(h.2.1 rfl).1, (h.2.2.1 rfl).1, (h.2.2.2 rfl rfl).2⟩

/-- C9: for all status texts of non-ok responses, the error stored by a failed
`handleRotate` differs from the error stored by a failed `handleReset` and
from the error stored by a failed `fetchCubeState`. -/
theorem move_error_distinguishable (envM envR envF : Env) (sM sR sF : SessionState)
    (face : String) (clockwise : Bool) (r1 r2 r3 : Response)
    (h1 : envM.fetch (rotateFace.request face clockwise) = .ok r1) (hok1 : r1.ok = false)
    (h2 : envR.fetch resetCube.request = .ok r2) (hok2 : r2.ok = false)
    (h3 : envF.fetch getCubeState.request = .ok r3) (hok3 : r3.ok = false) :
    (handleRotate envM sM face clockwise).1.error ≠ (handleReset envR sR).1.error ∧
    (handleRotate envM sM face clockwise).1.error ≠ (fetchCubeState envF sF).1.error := by
  rw [handleRotate_error envM sM face clockwise _ (rotateFace_not_ok envM face clockwise r1 h1 hok1),
    handleReset_error envR sR _ (resetCube_not_ok envR r2 h2 hok2),
    fetchCubeState_error envF sF _ (getCubeState_not_ok envF r3 h3 hok3)]
  constructor
  · intro h
    have hd := congrArg String.data (Option.some.inj h)
    simp at hd
  · intro h
    have hd := congrArg String.data (Option.some.inj h)
    simp at hd

/-- Witness of C9: the three operations are each answered with status 500. -/
theorem move_error_distinguishable_witness :
    (handleRotate (Sample.respond Sample.serverError) Sample.ready "front" true).1.error ≠
      (handleReset (Sample.respond Sample.serverError) Sample.ready).1.error ∧
    (handleRotate (Sample.respond Sample.serverError) Sample.ready "front" true).1.error ≠
      (fetchCubeState (Sample.respond Sample.serverError) Sample.ready).1.error :=
  move_error_distinguishable (Sample.respond Sample.serverError)
    (Sample.respond Sample.serverError) (Sample.respond Sample.serverError)
    Sample.ready Sample.ready Sample.ready "front" true
    Sample.serverError Sample.serverError Sample.serverError rfl rfl rfl rfl rfl rfl

/-- C10: a rotate or a reset that succeeds (the call returns a body and the
read of its `cube` does not throw) leaves the error as it was: for every prior
state the settled error is the prior error, the cube is the new one, and a
non-empty prior error is still what the banner shows; after `handleRotate` or
`handleReset` the error is absent only if it was absent before, while
`fetchCubeState` settles with the error absent exactly when `getCubeState`
succeeds. -/
theorem success_keeps_error (env : Env) (s : SessionState) (face : String)
    (clockwise : Bool) (body c : JsValue) (hc : body.getProp env "cube" = .ok c) :
    ((rotateFace env face clockwise).1 = .ok body →
      (handleRotate env s face clockwise).1.error = s.error ∧
      (handleRotate env s face clockwise).1.cubeState = c ∧
      (∀ e, s.error = some e → e ≠ "" →
        errorBanner (handleRotate env s face clockwise).1 = some e ∧
        ∀ view, render env (handleRotate env s face clockwise).1 = .ok view →
          view.errorMessage = some e)) ∧
    ((resetCube env).1 = .ok body →
      (handleReset env s).1.error = s.error ∧
      (handleReset env s).1.cubeState = c ∧
      (∀ e, s.error = some e → e ≠ "" →
        errorBanner (handleReset env s).1 = some e ∧
        ∀ view, render env (handleReset env s).1 = .ok view → view.errorMessage = some e)) ∧
    ((handleRotate env s face clockwise).1.error = none → s.error = none) ∧
    ((handleReset env s).1.error = none → s.error = none) ∧
    ((fetchCubeState env s).1.error = none ↔ ∃ data, (getCubeState env).1 = .ok data) := by
  refine ⟨?_, ?_, handleRotate_error_none env s face clockwise, handleReset_error_none env s, ?_⟩
  · intro h
    rw [handleRotate_ok env s face clockwise body c h hc]
    refine ⟨rfl, rfl, ?_⟩
    intro e he hne
    have hb : errorBanner ⟨c, false, s.error⟩ = some e := errorBanner_of_nonempty _ e he hne
    refine ⟨hb, ?_⟩
    intro view hv
    rw [(render_ok env _ view hv).1, hb]
  · intro h
    rw [handleReset_ok env s body c h hc]
    refine ⟨rfl, rfl, ?_⟩
    intro e he hne
    have hb : errorBanner ⟨c, false, s.error⟩ = some e := errorBanner_of_nonempty _ e he hne
    refine ⟨hb, ?_⟩
    intro view hv
    rw [(render_ok env _ view hv).1, hb]
  · constructor
    · intro h
      cases hg : (getCubeState env).1 with
      | error err =>
        rw [fetchCubeState_error env s err hg] at h
        cases h
      | ok data => exact ⟨data, rfl⟩
    · rintro ⟨data, hg⟩
      rw [fetchCubeState_ok env s data hg]

/-- Witness of C10: a rotate failed with status 500, then a reset succeeds with
the solved cube; the state holds the solved cube and the message of the failed
rotate, and the component renders the net together with that message. -/
theorem success_keeps_error_witness :
    (handleRotate (Sample.respond Sample.serverError) Sample.ready "front" true).1.error =
      some "Failed to rotate face: Failed to rotate face: Internal Server Error" ∧
    (handleReset (Sample.respond (Sample.okWith (.object [("cube", Sample.solved)])))
      (handleRotate (Sample.respond Sample.serverError) Sample.ready "front" true).1).1.error =
      some "Failed to rotate face: Failed to rotate face: Internal Server Error" ∧
    (handleReset (Sample.respond (Sample.okWith (.object [("cube", Sample.solved)])))
      (handleRotate (Sample.respond Sample.serverError) Sample.ready "front" true).1).1.cubeState =
      Sample.solved ∧
    ∃ view,
      render (Sample.respond (Sample.okWith (.object [("cube", Sample.solved)])))
        (handleReset (Sample.respond (Sample.okWith (.object [("cube", Sample.solved)])))
          (handleRotate (Sample.respond Sample.serverError) Sample.ready "front" true).1).1 =
        .ok view ∧
      view.cubeNet.isSome = true ∧
      view.errorMessage =
        some "Failed to rotate face: Failed to rotate face: Internal Server Error" := by
  have h := (success_keeps_error
    (Sample.respond (Sample.okWith (.object [("cube", Sample.solved)])))
    (handleRotate (Sample.respond Sample.serverError) Sample.ready "front" true).1
    "front" true (.object [("cube", Sample.solved)]) Sample.solved rfl).2.1 rfl
  refine ⟨rfl, h.1, h.2.1, _, rfl, rfl, ?_⟩
  exact (h.2.2 "Failed to rotate face: Failed to rotate face: Internal Server Error" rfl
    (by decide)).2 _ rfl

/-- C6: for every well-formed CubeState c, `CubeNet` renders exactly six faces
in the order up, left, front, right, back, down, each read from c without
change, and the sticker classes of face f are `square ` followed by
c[f][0][0], c[f][0][1], c[f][0][2], c[f][1][0], ..., c[f][2][2] in this order;
two grids with the same rendered sequence are the same grid. -/
theorem cubeNet_row_major (env : Env) (c : JsValue) (hc : isCubeState c = true) :
    (∀ f ∈ FaceIds, c.getProp env f = .ok (c.face f).toJs) ∧
    (∃ faces, CubeNet env c = .ok faces ∧
      faces.map (fun x => x.1) = ["up", "left", "front", "right", "back", "down"] ∧
      faces.map (fun x => x.2.label) = ["U", "L", "F", "R", "B", "D"] ∧
      faces.map (fun x => (x.2.stickers.map fun q => q.key)) =
        List.replicate 6 ["0-0", "0-1", "0-2", "1-0", "1-1", "1-2", "2-0", "2-1", "2-2"] ∧
      faces.map (fun x => (x.2.stickers.map fun q => q.className)) =
        ["up", "left", "front", "right", "back", "down"].map
          (fun f => (c.face f).rowMajor.map (fun t => "square " ++ t))) ∧
    (∀ g g2 : FaceGrid,
      g.rowMajor.map (fun t => "square " ++ t) = g2.rowMajor.map (fun t => "square " ++ t) →
      g = g2) := by
  cases c with
  | object fields =>
    have hup := isCubeState_lookup fields hc "up" (by decide)
    have hdown := isCubeState_lookup fields hc "down" (by decide)
    have hfront := isCubeState_lookup fields hc "front" (by decide)
    have hback := isCubeState_lookup fields hc "back" (by decide)
    have hleft := isCubeState_lookup fields hc "left" (by decide)
    have hright := isCubeState_lookup fields hc "right" (by decide)
    refine ⟨?_, ?_, rowMajor_classes_inj⟩
    · intro f hf
      simp only [JsValue.getProp, isCubeState_lookup fields hc f hf]
    · have hnet : CubeNet env (.object fields) =
          .ok [("up", ((JsValue.object fields).face "up").rendered "U" "up"),
               ("left", ((JsValue.object fields).face "left").rendered "L" "left"),
               ("front", ((JsValue.object fields).face "front").rendered "F" "front"),
               ("right", ((JsValue.object fields).face "right").rendered "R" "right"),
               ("back", ((JsValue.object fields).face "back").rendered "B" "back"),
               ("down", ((JsValue.object fields).face "down").rendered "D" "down")] := by
        simp only [CubeNet, faceConfig, List.mapM_cons, List.mapM_nil, JsValue.getProp,
          hup, hdown, hfront, hback, hleft, hright, CubeFace_toJs, bind, Except.bind, pure,
          Except.pure]
      exact ⟨_, hnet, rfl, rfl, rfl, rfl⟩
  | undefined => cases hc
  | null => cases hc
  | bool b => cases hc
  | number t => cases hc
  | string t => cases hc
  | array items => cases hc

/-- Witness of C6: the solved cube. -/
theorem cubeNet_row_major_witness :
    isCubeState Sample.solved = true ∧
    ∃ faces, CubeNet (Sample.throwing "") Sample.solved = .ok faces ∧
      faces.map (fun x => x.1) = ["up", "left", "front", "right", "back", "down"] ∧
      faces.map (fun x => (x.2.stickers.map fun q => q.className)) =
        [List.replicate 9 "square U", List.replicate 9 "square L", List.replicate 9 "square F",
         List.replicate 9 "square R", List.replicate 9 "square B", List.replicate 9 "square D"] :=
  have h := (cubeNet_row_major (Sample.throwing "") Sample.solved rfl).2.1
  ⟨rfl, h.choose, h.choose_spec.1, h.choose_spec.2.1,
    h.choose_spec.2.2.2.2.trans (by decide)⟩

/-- C4: the `FaceButton` elements of `FaceControls` are exactly the twelve
moves, each once: their (face, direction) pairs are a rearrangement of
the product of the six faces and the two directions, which has twelve
entries without repetition; and a click on the button of the element for
(f, d) rendered with loading = false runs `handleRotate(f, d = clockwise)`,
which makes exactly one `rotateFace` request, with the body
`face: f, clockwise: (d = clockwise)`. -/
theorem move_controls_exact (env : Env) (s : SessionState) :
    (∀ loading, ((FaceControls.elements loading).map fun p => (p.face, p.direction)).Perm Moves) ∧
    Moves.Nodup ∧ Moves.length = 12 ∧
    (∀ p ∈ FaceControls.elements false,
      (FaceButton p).click env s = handleRotate env s p.face (p.direction == "clockwise") ∧
      ((FaceButton p).click env s).2 =
        [rotateFace.request p.face (p.direction == "clockwise")] ∧
      (rotateFace.request p.face (p.direction == "clockwise")).body =
        some (.object [("face", .string p.face),
          ("clockwise", .bool (p.direction == "clockwise"))])) := by
  refine ⟨?_, by decide, by decide, ?_⟩
  · intro loading
    cases loading <;> decide
  · intro p hp
    have hl : p.loading = false := by
      simp only [FaceControls.elements, FaceControls, FaceControls.faces, List.map_cons,
        List.map_nil, List.flatMap_cons, List.flatMap_nil, List.cons_append, List.nil_append,
        List.append_nil, List.mem_cons, List.mem_singleton, List.not_mem_nil, or_false] at hp
      rcases hp with h | h | h | h | h | h | h | h | h | h | h | h <;> rw [h]
    have hclick : (FaceButton p).click env s =
        handleRotate env s p.face (p.direction == "clockwise") := by
      simp [RotateButton.click, FaceButton, hl]
    refine ⟨hclick, ?_, rfl⟩
    rw [hclick]
    rfl

/-- Witness of C4: the counterclockwise button of the left face. -/
theorem move_controls_exact_witness :
    (⟨"left", "L", "counterclockwise", false⟩ : FaceButtonProps) ∈ FaceControls.elements false ∧
    ((FaceButton ⟨"left", "L", "counterclockwise", false⟩).click
      (Sample.respond (Sample.okWith (.object [("cube", Sample.solved)]))) Sample.ready).2 =
      [rotateFace.request "left" false] ∧
    (rotateFace.request "left" false).body =
      some (.object [("face", .string "left"), ("clockwise", .bool false)]) :=
  have h := (move_controls_exact
    (Sample.respond (Sample.okWith (.object [("cube", Sample.solved)]))) Sample.ready).2.2.2
    ⟨"left", "L", "counterclockwise", false⟩
    (by simp [FaceControls.elements, FaceControls, FaceControls.faces])
  ⟨by simp [FaceControls.elements, FaceControls, FaceControls.faces], h.2.1, h.2.2⟩

/-- C5: for every state, the controls rendered from it are twelve rotate
buttons and the reset button, and each of them is disabled exactly when
loading = true (disabled when loading, enabled when not), whatever the cube;
what the component renders carries these controls, and with the cube absent it
always renders. -/
theorem controls_follow_loading (env : Env) (s : SessionState) :
    ((controlsContainer s).faceControls.flatMap fun g => g.buttons).length = 12 ∧
    (∀ p ∈ (controlsContainer s).faceControls.flatMap fun g => g.buttons,
      (FaceButton p).disabled = s.loading) ∧
    (controlsContainer s).cubeOperations.disabled = s.loading ∧
    (∀ view, render env s = .ok view → view.controls = controlsContainer s) ∧
    (s.cubeState = .null →
      render env s = .ok ⟨errorBanner s, s.loading, none, controlsContainer s⟩) := by
  refine ⟨rfl, ?_, rfl, fun view hv => (render_ok env s view hv).2.2, ?_⟩
  · intro p hp
    simp only [controlsContainer, FaceControls, FaceControls.faces, List.map_cons,
      List.map_nil, List.flatMap_cons, List.flatMap_nil, List.cons_append, List.nil_append,
      List.append_nil, List.mem_cons, List.mem_singleton, List.not_mem_nil, or_false] at hp
    rcases hp with h | h | h | h | h | h | h | h | h | h | h | h <;> rw [h] <;> rfl
  · intro hnull
    simp [render, hnull, JsValue.truthy, bind, Except.bind, pure, Except.pure]

/-- Witness of C5: the initial state (loading, no cube) and the state after a
successful fetch (not loading, cube present). -/
theorem controls_follow_loading_witness :
    (FaceButton ⟨"front", "F", "clockwise", true⟩).disabled = SessionState.initial.loading ∧
    (FaceButton ⟨"front", "F", "clockwise", false⟩).disabled = Sample.ready.loading ∧
    render (Sample.throwing "") SessionState.initial =
      .ok ⟨none, true, none, controlsContainer SessionState.initial⟩ :=
  ⟨(controls_follow_loading (Sample.throwing "") SessionState.initial).2.1
      ⟨"front", "F", "clockwise", true⟩
      (by simp [controlsContainer, FaceControls, FaceControls.faces, SessionState.initial]),
    (controls_follow_loading (Sample.throwing "") Sample.ready).2.1
      ⟨"front", "F", "clockwise", false⟩
      (by simp [controlsContainer, FaceControls, FaceControls.faces, Sample.ready,
        fetchCubeState, setLoading]),
    (controls_follow_loading (Sample.throwing "") SessionState.initial).2.2.2.2 rfl⟩

end RubiksCube
